import Mathlib

/-!
Shallow embedding of the mouseless keyboard remapper core.

The layer/binding interpreter (globals `currentLayer`, `toggleLayerKeys`,
`toggleLayerPrevious`, `config`, and functions `loadConfig`, `handleKey`,
`executeBinding`, the mouse part of `mainLoop`) is translated from the main
package source. The keyboard reader (`Device`, `ReadLoop`, `openDevice`,
`readKeyboard`) is translated from the keyboard package source.

Modelling conventions:
- Go float64 values are modelled as rationals; the verified claims depend only
  on field-zero reasoning, never on rounding.
- Go maps from key code to binding are modelled as association lists with
  lookup of the first matching key.
- Go pointer equality and membership on layers is modelled as structural
  equality; distinct layers produced by the config reader are structurally
  distinct in every scenario used below.
- `os.Exit` (reached through `exitError`) is modelled by an `exited` flag on
  the interpreter state; once set, a step leaves the state unchanged, since
  the process is gone. The dead store of a nil config on the failing reload
  path is not modelled, because the process terminates on that path.
- External effects (virtual keyboard and mouse calls, command execution) are
  recorded in an `emitted` trace.
- The result of `readConfig` (external config package) is an explicit
  `Option Config` argument threaded to the places that call `loadConfig`:
  `none` models a read failure, `some c` a successful parse.
-/

namespace Mouseless

/-- Key code of the Escape key (`evdev.KEY_ESC`). -/
def KEY_ESC : Nat := 1

/-- Modelled from the spec: the wildcard sentinel key code exported by the
external config package ("may contain wildcard sentinel"). The claims proved
below do not depend on its numeric value, only on it being a fixed code. -/
def WildcardKey : Nat := 0

mutual
/-- The binding variants of the config package, as consumed by
`executeBinding` and `mainLoop` (KeyBinding, ButtonBinding, MoveBinding,
ScrollBinding, SpeedBinding, LayerBinding, ToggleLayerBinding,
TapHoldBinding, MultiBinding, ReloadConfigBinding, ExecBinding). -/
inductive Binding where
  | key (keyCombo : List Nat)
  | button (button : Nat)
  | move (x y : ℚ)
  | scroll (x y : ℚ)
  | speed (speed : ℚ)
  | layer (layer : String)
  | toggleLayer (layer : String)
  | tapHold (tapBinding holdBinding : Binding)
  | multi (bindings : BindingList)
  | reloadConfig
  | exec (command : String)
deriving DecidableEq

/-- A slice of bindings (the payload of MultiBinding), as a mutual inductive
so that decidable equality and structural recursion are available. -/
inductive BindingList where
  | nil
  | cons (b : Binding) (rest : BindingList)
deriving DecidableEq
end

/-- A layer of the configuration: name, bindings map, optional wildcard
binding, pass-through flag. Read-only after load. -/
structure Layer where
  name : String
  bindings : List (Nat × Binding)
  wildcardBinding : Option Binding
  passThrough : Bool
deriving DecidableEq

instance : Inhabited Layer := ⟨⟨"", [], none, false⟩⟩

/-- Modelled from the spec: the Config record of the external config package
(fields as used by the main package source). -/
structure Config where
  devices : List String
  startCommand : String
  quickTapTime : Nat
  baseMouseSpeed : ℚ
  startMouseSpeed : ℚ
  baseScrollSpeed : ℚ
  mouseAccelerationTime : ℚ
  mouseDecelerationTime : ℚ
  mouseAccelerationCurve : ℚ
  mouseDecelerationCurve : ℚ
  layers : List Layer
deriving DecidableEq

/-- The disambiguated keyboard event consumed by `handleKey` (fields of the
KeyboardEvent produced by the tap-hold handler that the interpreter reads:
code, isPress, holdKey). -/
structure KeyboardEvent where
  code : Nat
  isPress : Bool
  holdKey : Bool
deriving DecidableEq

/-- External effects of the interpreter, recorded as a trace:
`keyboard.PressKeys`, `keyboard.OriginalKeyUp`, `mouse.OriginalKeyUp`,
`mouse.ButtonPress`, and shell command execution of ExecBinding. -/
inductive Emit where
  | pressKeys (owner : Nat) (keys : List Nat)
  | originalKeyUpKeyboard (code : Nat)
  | originalKeyUpMouse (code : Nat)
  | buttonPress (owner : Nat) (button : Nat)
  | execCommand (command : String)
deriving DecidableEq

/-- The mutable interpreter state: the globals `config`, `currentLayer`,
`toggleLayerKeys`, `toggleLayerPrevious`, plus the exit flag and the trace of
emitted external effects. -/
structure InterpState where
  config : Config
  currentLayer : Layer
  toggleLayerKeys : List Nat
  toggleLayerPrevious : List Layer
  exited : Bool
  emitted : List Emit
deriving DecidableEq

/-- The initial layer `config.Layers[0]`; total via `headI` (every
configuration produced by the config reader has at least one layer, and the
theorems below carry explicit nonemptiness where it matters). -/
def initialLayer (c : Config) : Layer := c.layers.headI

/-- Translation of `loadConfig`: on a read failure `exitError` terminates the
process (`exited := true`); on success the new config is installed and
`currentLayer` is set to its first layer (a config without layers would make
the Go index expression panic, also modelled as termination). Note that the
toggle stacks are not touched. -/
def loadConfig (readResult : Option Config) (s : InterpState) : InterpState :=
  match readResult with
  | none => { s with exited := true }
  | some c =>
    match c.layers with
    | [] => { s with config := c, exited := true }
    | l0 :: _ => { s with config := c, currentLayer := l0 }

/-- The search loop `for _, layer := range config.Layers` with a name match
and break: the first layer of the given name, if any. -/
def findLayer (c : Config) (name : String) : Option Layer :=
  c.layers.find? (fun l => l.name == name)

/-- Translation of the wildcard substitution in the KeyBinding case of
`executeBinding`: the source copies the combo slice and overwrites every
wildcard position of the copy with the pressed code, leaving the stored combo
untouched. -/
def substituteWildcards (code : Nat) (keyCombo : List Nat) : List Nat :=
  keyCombo.map (fun k => if k = WildcardKey then code else k)

mutual
/-- Translation of `executeBinding` (nil bindings are handled by
`executeBindingOpt` below). Speed, move and scroll bindings have no case in
the source type switch and fall through unchanged. -/
def executeBinding (reload : Option Config) (event : KeyboardEvent) :
    Binding → InterpState → InterpState
  | .multi bs, s => executeBindingList reload event bs s
  | .tapHold tapB holdB, s =>
    if event.holdKey then executeBinding reload event holdB s
    else executeBinding reload event tapB s
  | .layer name, s =>
    if event.isPress then
      let s1 := if s.toggleLayerPrevious ≠ [] then
          { s with toggleLayerKeys := [], toggleLayerPrevious := [] }
        else s
      match findLayer s1.config name with
      | some l => { s1 with currentLayer := l }
      | none => s1
    else s
  | .toggleLayer name, s =>
    if event.isPress then
      match findLayer s.config name with
      | some l =>
        { s with toggleLayerKeys := s.toggleLayerKeys ++ [event.code],
                 toggleLayerPrevious := s.toggleLayerPrevious ++ [s.currentLayer],
                 currentLayer := l }
      | none => s
    else s
  | .reloadConfig, s => if event.isPress then loadConfig reload s else s
  | .key combo, s =>
    if event.isPress then
      { s with emitted :=
          s.emitted ++ [.pressKeys event.code (substituteWildcards event.code combo)] }
    else s
  | .button btn, s =>
    if event.isPress then
      { s with emitted := s.emitted ++ [.buttonPress event.code btn] }
    else s
  | .exec cmd, s =>
    if event.isPress then { s with emitted := s.emitted ++ [.execCommand cmd] }
    else s
  | .move _ _, s => s
  | .scroll _ _, s => s
  | .speed _, s => s

/-- The MultiBinding loop: execute all bindings in order. -/
def executeBindingList (reload : Option Config) (event : KeyboardEvent) :
    BindingList → InterpState → InterpState
  | .nil, s => s
  | .cons b rest, s =>
    executeBindingList reload event rest (executeBinding reload event b s)
end

/-- The nil case of the Go type switch: a nil binding does nothing. -/
def executeBindingOpt (reload : Option Config) (event : KeyboardEvent) :
    Option Binding → InterpState → InterpState
  | none, s => s
  | some b, s => executeBinding reload event b s

/-- The binding resolution prefix of `handleKey`: exact map lookup, then the
Escape fallback, then the wildcard binding, then the pass-through synthesis,
in exactly the source order. -/
def resolveBinding (s : InterpState) (event : KeyboardEvent) : Option Binding :=
  let b0 := s.currentLayer.bindings.lookup event.code
  let b1 :=
    if b0 = none ∧ event.code = KEY_ESC ∧ event.isPress = true ∧
        s.currentLayer ≠ initialLayer s.config then
      some (Binding.layer (initialLayer s.config).name)
    else b0
  let b2 :=
    if b1 = none then
      match s.currentLayer.wildcardBinding with
      | some w => some w
      | none => b1
    else b1
  if b2 = none ∧ s.currentLayer.passThrough then
    some (Binding.key [event.code])
  else b2

/-- Translation of `handleKey`: resolve the binding from the pre-step state,
pop the momentary stack on a release of a recorded toggle key (first match,
truncating both stacks and restoring the recorded previous layer), mirror the
release to the virtual keyboard and mouse, then execute the binding. -/
def handleKey (reload : Option Config) (event : KeyboardEvent)
    (s : InterpState) : InterpState :=
  if s.exited then s
  else
    let binding := resolveBinding s event
    let s1 :=
      if event.isPress = false then
        match s.toggleLayerKeys.findIdx? (fun k => k == event.code) with
        | some i =>
          { s with currentLayer := s.toggleLayerPrevious.getD i s.currentLayer,
                   toggleLayerKeys := s.toggleLayerKeys.take i,
                   toggleLayerPrevious := s.toggleLayerPrevious.take i }
        | none => s
      else s
    let s2 :=
      if event.isPress = false then
        { s1 with emitted := s1.emitted ++
            [.originalKeyUpKeyboard event.code, .originalKeyUpMouse event.code] }
      else s1
    executeBindingOpt reload event binding s2

/-- The interpreter state right after startup: zero-valued globals followed by
the initial `loadConfig` call. -/
def initialState (c : Config) : InterpState :=
  loadConfig (some c) ⟨c, default, [], [], false, []⟩

/-- Calls the mouse part of `mainLoop` makes into the virtual mouse on one
iteration: `mouse.Scroll` and `mouse.Move` with the argument expressions of
the source. -/
inductive MouseAction where
  | scroll (x y : ℚ)
  | move (x y startSpeed maxSpeed accelCurve accelStep decelCurve decelStep
      speedFactor : ℚ)
deriving DecidableEq

/-- Outcome of one mouse iteration: the virtual mouse calls made, and whether
the timer was armed with the effectively-infinite duration (`parked = true`)
rather than the 20 ms interval. -/
structure TickResult where
  actions : List MouseAction
  parked : Bool
deriving DecidableEq

/-- `mouseLoopInterval.Seconds()` for the 20 ms interval. -/
def mouseLoopIntervalSeconds : ℚ := 1 / 50

/-- The accumulation loop over `currentLayer.Bindings` in `mainLoop`: for each
physically pressed code, speed bindings multiply the factor and scroll/move
bindings add their contributions; every other variant is skipped. -/
def accumulateContribs (pressed : Nat → Bool) :
    List (Nat × Binding) → ℚ × ℚ × ℚ × ℚ × ℚ → ℚ × ℚ × ℚ × ℚ × ℚ
  | [], acc => acc
  | (code, b) :: rest, (mx, my, sx, sy, sf) =>
    accumulateContribs pressed rest <|
      if pressed code then
        match b with
        | .speed v => (mx, my, sx, sy, sf * v)
        | .scroll x y => (mx, my, sx + x, sy + y, sf)
        | .move x y => (mx + x, my + y, sx, sy, sf)
        | _ => (mx, my, sx, sy, sf)
      else (mx, my, sx, sy, sf)

/-- The mouse movement and scrolling tail of one `mainLoop` iteration:
accumulate held contributions, and either emit `Scroll` and `Move` and re-arm
the 20 ms timer, or park the timer at the effectively-infinite duration. -/
def mouseTick (pressed : Nat → Bool) (isMoving : Bool) (s : InterpState) :
    TickResult :=
  let acc := accumulateContribs pressed s.currentLayer.bindings (0, 0, 0, 0, 1)
  match acc with
  | (moveX, moveY, scrollX, scrollY, speedFactor) =>
    if moveX ≠ 0 ∨ moveY ≠ 0 ∨ scrollX ≠ 0 ∨ scrollY ≠ 0 ∨ isMoving = true then
      let tickTime := mouseLoopIntervalSeconds
      let moveSpeed := s.config.baseMouseSpeed * tickTime
      let scrollSpeed := s.config.baseScrollSpeed * tickTime
      let accelerationStep := tickTime * 1000 / s.config.mouseAccelerationTime
      let decelerationStep := tickTime * 1000 / s.config.mouseDecelerationTime
      { actions :=
          [ .scroll (scrollX * scrollSpeed * speedFactor)
              (scrollY * scrollSpeed * speedFactor),
            .move (moveX * moveSpeed) (moveY * moveSpeed)
              (s.config.startMouseSpeed * tickTime)
              (s.config.baseMouseSpeed * tickTime)
              s.config.mouseAccelerationCurve accelerationStep
              s.config.mouseDecelerationCurve decelerationStep speedFactor ],
        parked := false }
    else { actions := [], parked := true }

end Mouseless

namespace Mouseless.Keyboard

/-- Device states of the keyboard package: StateNotOpen, StateOpenFailed,
StateOpen. -/
inductive DeviceState where
  | stateNotOpen
  | stateOpenFailed
  | stateOpen
deriving DecidableEq

/-- The fields of the keyboard Device record that the open/retry logic reads
and writes (the evdev handle and channel are external). -/
structure Device where
  deviceName : String
  state : DeviceState
  lastOpenError : String
deriving DecidableEq

/-- Outcome of the external evdev open-and-grab pair inside `openDevice`:
either the open fails, the grab fails, or both succeed. -/
inductive OpenOutcome where
  | openFails (err : String)
  | grabFails (err : String)
  | success
deriving DecidableEq

/-- Log levels relevant to the open-retry path. -/
inductive LogLevel where
  | debug
  | warn
deriving DecidableEq

/-- Translation of `openDevice`: on either failure the state is set to
StateOpenFailed before the error is returned; on success the state becomes
StateOpen. -/
def openDevice (outcome : OpenOutcome) (d : Device) : Device × Option String :=
  match outcome with
  | .openFails e => ({ d with state := .stateOpenFailed }, some e)
  | .grabFails e => ({ d with state := .stateOpenFailed }, some e)
  | .success => ({ d with state := .stateOpen }, none)

/-- One 5-second-tick iteration of `ReadLoop`: if the device is not open, try
`openDevice`; on error record it and log at debug when the state (as already
updated by `openDevice`) is StateOpenFailed, else at warn. Returns the new
device state and the level of the failure log line, if any. -/
def readLoopIter (outcome : OpenOutcome) (d : Device) :
    Device × Option LogLevel :=
  if d.state ≠ .stateOpen then
    match openDevice outcome d with
    | (d1, some e) =>
      let d2 := { d1 with lastOpenError := e }
      if d2.state = .stateOpenFailed then (d2, some .debug)
      else (d2, some .warn)
    | (d1, none) => (d1, none)
  else (d, none)

/-- Raw evdev input event fields read by `readKeyboard`. -/
structure InputEvent where
  eventType : Nat
  code : Nat
  value : Int
deriving DecidableEq

/-- `evdev.EV_KEY`. -/
def EV_KEY : Nat := 1

/-- The Event record forwarded on the channel by the keyboard reader. -/
structure Event where
  code : Nat
  isPress : Bool
  time : Nat
deriving DecidableEq

/-- The forwarding loop body of `readKeyboard` over one batch of events read
from the device: key-type events with value 0 or 1 are sent on the channel
with the current time, everything else is dropped. -/
def processEvents (now : Nat) : List InputEvent → List Event
  | [] => []
  | e :: rest =>
    if e.eventType = EV_KEY ∧ (e.value = 0 ∨ e.value = 1) then
      { code := e.code, isPress := e.value == 1, time := now } ::
        processEvents now rest
    else processEvents now rest

end Mouseless.Keyboard

namespace Mouseless

/-- A configuration skeleton with no devices and zero tuning values, used by
the concrete scenarios below. -/
def cfgZero : Config :=
  { devices := [], startCommand := "", quickTapTime := 0,
    baseMouseSpeed := 0, startMouseSpeed := 0, baseScrollSpeed := 0,
    mouseAccelerationTime := 0, mouseDecelerationTime := 0,
    mouseAccelerationCurve := 0, mouseDecelerationCurve := 0, layers := [] }

/-- A press event for the given code. -/
def pressEv (c : Nat) : KeyboardEvent := ⟨c, true, false⟩

/-- A release event for the given code. -/
def releaseEv (c : Nat) : KeyboardEvent := ⟨c, false, false⟩

/-- Scenario layer L0: key 58 toggles layer L1. -/
def demoL0 : Layer :=
  { name := "L0", bindings := [(58, .toggleLayer "L1")],
    wildcardBinding := none, passThrough := false }

/-- Scenario layer L1: key 59 toggles layer L2. -/
def demoL1 : Layer :=
  { name := "L1", bindings := [(59, .toggleLayer "L2")],
    wildcardBinding := none, passThrough := false }

/-- Scenario layer L2: no bindings. -/
def demoL2 : Layer :=
  { name := "L2", bindings := [], wildcardBinding := none,
    passThrough := false }

/-- Scenario configuration with layers L0, L1, L2. -/
def demoCfg : Config := { cfgZero with layers := [demoL0, demoL1, demoL2] }

/-- Scenario state after startup on `demoCfg`. -/
def demoS0 : InterpState := initialState demoCfg

/-- Scenario state after pressing key 58 (ToggleLayer L1). -/
def demoS1 : InterpState := handleKey none (pressEv 58) demoS0

/-- Scenario state after additionally pressing key 59 (ToggleLayer L2). -/
def demoS2 : InterpState := handleKey none (pressEv 59) demoS1

/-- Reload-scenario layer bound to ReloadConfig on key 40 besides the toggle
on key 58. -/
def rldL0 : Layer :=
  { name := "L0", bindings := [(58, .toggleLayer "L1")],
    wildcardBinding := none, passThrough := false }

/-- Reload-scenario layer L1: key 40 reloads the config. -/
def rldL1 : Layer :=
  { name := "L1", bindings := [(40, .reloadConfig)],
    wildcardBinding := none, passThrough := false }

/-- Reload-scenario old configuration. -/
def rldCfgA : Config := { cfgZero with layers := [rldL0, rldL1] }

/-- Reload-scenario new configuration, whose only layer is M0. -/
def rldCfgB : Config :=
  { cfgZero with layers :=
      [{ name := "M0", bindings := [], wildcardBinding := none,
         passThrough := false }] }

/-- Reload scenario: startup on the old config, press the toggle key, press
the reload key while the new config parses successfully, then release the
toggle key. -/
def rldS3 : InterpState :=
  handleKey none (releaseEv 58)
    (handleKey (some rldCfgB) (pressEv 40)
      (handleKey none (pressEv 58) (initialState rldCfgA)))

/-- Escape-scenario initial layer. -/
def escBase : Layer :=
  { name := "base", bindings := [], wildcardBinding := none,
    passThrough := false }

/-- Escape-scenario non-initial layer with a wildcard binding and no binding
for the Escape key. -/
def escAlt : Layer :=
  { name := "alt", bindings := [], wildcardBinding := some (.key [30]),
    passThrough := false }

/-- Escape-scenario state: current layer is the non-initial wildcard layer. -/
def escState : InterpState :=
  { config := { cfgZero with layers := [escBase, escAlt] },
    currentLayer := escAlt, toggleLayerKeys := [],
    toggleLayerPrevious := [], exited := false, emitted := [] }

/-- Unknown-layer-name scenario: current layer is L1 with the momentary stack
holding one toggle entry, and no layer is named ghost. -/
def ghostState : InterpState :=
  { config := demoCfg, currentLayer := demoL1, toggleLayerKeys := [58],
    toggleLayerPrevious := [demoL0], exited := false, emitted := [] }

/-- Layer-membership invariant of the interpreter state: the current layer
and every layer recorded on the momentary stack belong to the layers of the
current configuration (vacuous once the process has exited). -/
def Inv (s : InterpState) : Prop :=
  s.exited = true ∨
    (s.currentLayer ∈ s.config.layers ∧
      ∀ l ∈ s.toggleLayerPrevious, l ∈ s.config.layers)

/-- The per-binding hypothesis of the parked-tick claim: the binding makes no
motion contribution (move and scroll payloads are zero; all other variants
contribute no motion). -/
def noMotionContribution : Binding → Prop
  | .move x y => x = 0 ∧ y = 0
  | .scroll x y => x = 0 ∧ y = 0
  | _ => True

end Mouseless

namespace Mouseless

mutual
/-- On a release event, no case of the binding type switch mutates any state:
every leaf case is gated on a press and the recursive cases only recurse. -/
theorem executeBinding_release (reload : Option Config) (event : KeyboardEvent)
    (b : Binding) (s : InterpState) (h : event.isPress = false) :
    executeBinding reload event b s = s := by
  cases b with
  | multi bs => exact executeBindingList_release reload event bs s h
  | tapHold tapB holdB =>
    by_cases hk : event.holdKey <;>
      simp [executeBinding, hk, executeBinding_release reload event _ s h]
  | layer name => simp [executeBinding, h]
  | toggleLayer name => simp [executeBinding, h]
  | reloadConfig => simp [executeBinding, h]
  | key combo => simp [executeBinding, h]
  | button btn => simp [executeBinding, h]
  | exec cmd => simp [executeBinding, h]
  | move x y => simp [executeBinding]
  | scroll x y => simp [executeBinding]
  | speed v => simp [executeBinding]

/-- List version of `executeBinding_release`. -/
theorem executeBindingList_release (reload : Option Config)
    (event : KeyboardEvent) (bs : BindingList) (s : InterpState)
    (h : event.isPress = false) :
    executeBindingList reload event bs s = s := by
  cases bs with
  | nil => simp [executeBindingList]
  | cons b rest =>
    rw [executeBindingList, executeBinding_release reload event b s h,
      executeBindingList_release reload event rest s h]
end

/-- On a release event a possibly-nil binding mutates no state. -/
theorem executeBindingOpt_release (reload : Option Config)
    (event : KeyboardEvent) (b : Option Binding) (s : InterpState)
    (h : event.isPress = false) :
    executeBindingOpt reload event b s = s := by
  cases b with
  | none => simp [executeBindingOpt]
  | some b => exact executeBinding_release reload event b s h

/-- A layer found by the name-search loop is one of the configured layers. -/
theorem findLayer_mem {c : Config} {name : String} {l : Layer}
    (h : findLayer c name = some l) : l ∈ c.layers :=
  List.mem_of_find?_eq_some h

mutual
/-- Executing any binding without a successful config reload preserves the
layer-membership invariant. -/
theorem executeBinding_inv (event : KeyboardEvent) (b : Binding)
    (s : InterpState) (h : Inv s) :
    Inv (executeBinding none event b s) := by
  cases b with
  | multi bs => exact executeBindingList_inv event bs s h
  | tapHold tapB holdB =>
    by_cases hk : event.holdKey <;>
      simp only [executeBinding, hk, if_true, if_false, Bool.false_eq_true] <;>
      exact executeBinding_inv event _ s h
  | layer name =>
    by_cases hp : event.isPress
    · rcases h with h | ⟨h1, h2⟩
      · simp only [executeBinding, hp, if_true]
        left
        by_cases hne : s.toggleLayerPrevious = [] <;>
          cases hfl : findLayer s.config name <;> simp_all
      · simp only [executeBinding, hp, if_true]
        by_cases hne : s.toggleLayerPrevious = [] <;>
          cases hfl : findLayer s.config name with
          | none => right; simp_all
          | some l =>
            right
            refine ⟨?_, ?_⟩ <;> simp_all [findLayer_mem hfl]
    · simp only [executeBinding, hp]
      simpa using h
  | toggleLayer name =>
    by_cases hp : event.isPress
    · rcases h with h | ⟨h1, h2⟩
      · simp only [executeBinding, hp, if_true]
        left
        cases hfl : findLayer s.config name <;> simp_all
      · simp only [executeBinding, hp, if_true]
        cases hfl : findLayer s.config name with
        | none => right; exact ⟨h1, h2⟩
        | some l =>
          right
          refine ⟨findLayer_mem hfl, ?_⟩
          intro l2 hl2
          simp only [InterpState.mk.injEq] at hl2 ⊢
          rcases List.mem_append.1 hl2 with hmem | hmem
          · exact h2 l2 hmem
          · simp only [List.mem_singleton] at hmem
            subst hmem
            exact h1
    · simp only [executeBinding, hp]
      simpa using h
  | reloadConfig =>
    by_cases hp : event.isPress <;>
      simp only [executeBinding, hp, if_true, if_false]
    · left; rfl
    · simpa using h
  | key combo =>
    by_cases hp : event.isPress <;> simp only [executeBinding, hp] <;>
      simpa [Inv] using h
  | button btn =>
    by_cases hp : event.isPress <;> simp only [executeBinding, hp] <;>
      simpa [Inv] using h
  | exec cmd =>
    by_cases hp : event.isPress <;> simp only [executeBinding, hp] <;>
      simpa [Inv] using h
  | move x y => simpa [executeBinding] using h
  | scroll x y => simpa [executeBinding] using h
  | speed v => simpa [executeBinding] using h

/-- List version of `executeBinding_inv`. -/
theorem executeBindingList_inv (event : KeyboardEvent) (bs : BindingList)
    (s : InterpState) (h : Inv s) :
    Inv (executeBindingList none event bs s) := by
  cases bs with
  | nil => simpa [executeBindingList] using h
  | cons b rest =>
    rw [executeBindingList]
    exact executeBindingList_inv event rest _ (executeBinding_inv event b s h)
end

/-- Possibly-nil version of `executeBinding_inv`. -/
theorem executeBindingOpt_inv (event : KeyboardEvent) (b : Option Binding)
    (s : InterpState) (h : Inv s) :
    Inv (executeBindingOpt none event b s) := by
  cases b with
  | none => simpa [executeBindingOpt] using h
  | some b => exact executeBinding_inv event b s h

/-- A `handleKey` step without a successful config reload preserves the
layer-membership invariant: the momentary-stack pop restores a recorded layer
and truncation keeps a sub-stack, and binding execution is covered by
`executeBinding_inv`. -/
theorem handleKey_inv (event : KeyboardEvent) (s : InterpState) (h : Inv s) :
    Inv (handleKey none event s) := by
  rw [handleKey]
  by_cases hex : s.exited
  · simpa [hex] using h
  simp only [hex, if_false]
  apply executeBindingOpt_inv
  rcases h with h | ⟨h1, h2⟩
  · exact absurd h (by simpa using hex)
  by_cases hp : event.isPress = false
  · simp only [hp, if_true]
    cases hidx : s.toggleLayerKeys.findIdx? (fun k => k == event.code) with
    | none => exact Or.inr ⟨h1, by simpa using h2⟩
    | some i =>
      dsimp only
      right
      refine ⟨?_, ?_⟩
      · rcases hg : s.toggleLayerPrevious[i]? with _ | l
        · rw [List.getD_eq_getElem?_getD, hg]
          exact h1
        · rw [List.getD_eq_getElem?_getD, hg]
          rcases List.getElem?_eq_some.1 hg with ⟨hlt, rfl⟩
          exact h2 _ (List.getElem_mem hlt)
      · intro l hl
        simp only [List.mem_append] at hl
        exact h2 l (List.mem_of_mem_take hl)
  · simpa [hp] using Or.inr ⟨h1, h2⟩

end Mouseless

namespace Mouseless

/-- Counterexample to claim C2: at this concrete state, a ReloadConfig press
whose configuration re-read fails sets the exit flag, so the process
terminates instead of continuing with the old configuration. -/
theorem c2_counterexample :
    (initialState demoCfg).exited = false ∧
    (executeBinding none (pressEv 40) Binding.reloadConfig
      (initialState demoCfg)).exited = true := by
  decide

/-- Claim C2 (amended): when a ReloadConfig binding is executed on a press
and re-reading the configuration file fails, `exitError` terminates the
process (modelled by the exit flag); the event pipeline does not continue. -/
theorem c2_reload_failure_exits (ev : KeyboardEvent) (s : InterpState)
    (h : ev.isPress = true) :
    (executeBinding none ev Binding.reloadConfig s).exited = true := by
  simp [executeBinding, h, loadConfig]

/-- Witness for the C2 theorem at a concrete press and state. -/
theorem c2_reload_failure_exits_witness :
    (executeBinding none (pressEv 40) Binding.reloadConfig
      (initialState rldCfgA)).exited = true :=
  c2_reload_failure_exits (pressEv 40) (initialState rldCfgA) rfl

/-- Claim C10: executing a Key binding only appends a PressKeys emission
whose combo is the wildcard-substituted copy of the stored combo (the pressed
code at every wildcard position, the original code elsewhere); the current
layer, and with it the stored bindings map, is unchanged. -/
theorem c10_key_binding_copies (reload : Option Config) (ev : KeyboardEvent)
    (combo : List Nat) (s : InterpState) (hp : ev.isPress = true) :
    executeBinding reload ev (Binding.key combo) s =
      { s with emitted := s.emitted ++
          [Emit.pressKeys ev.code (substituteWildcards ev.code combo)] }
    ∧ (executeBinding reload ev (Binding.key combo) s).currentLayer
        = s.currentLayer
    ∧ ∀ i : Nat, (substituteWildcards ev.code combo)[i]? =
        (combo[i]?).map (fun k => if k = WildcardKey then ev.code else k) := by
  refine ⟨by simp [executeBinding, hp], by simp [executeBinding, hp], ?_⟩
  intro i
  simp [substituteWildcards, List.getElem?_map]

/-- Witness for the C10 theorem at a concrete combo containing a wildcard. -/
theorem c10_key_binding_copies_witness :
    executeBinding none (pressEv 30) (Binding.key [WildcardKey, 5]) escState =
      { escState with emitted := escState.emitted ++
          [Emit.pressKeys 30 (substituteWildcards 30 [WildcardKey, 5])] } :=
  (c10_key_binding_copies none (pressEv 30) [WildcardKey, 5] escState rfl).1

/-- Counterexample to claim C6: executing a Layer binding whose name matches
no configured layer on a press still clears the momentary stack, so the
interpreter state is not left unchanged. -/
theorem c6_counterexample :
    findLayer ghostState.config "ghost" = none ∧
    ghostState.toggleLayerKeys = [58] ∧
    (executeBinding none (pressEv 7) (Binding.layer "ghost")
      ghostState).toggleLayerKeys = [] := by
  decide

/-- Claim C6 (amended): a ToggleLayer binding whose layer name matches no
layer of the configuration is ignored with all interpreter state unchanged,
and the binding variants without a case in the type switch (Move, Scroll,
Speed, nil) leave all state unchanged; a Layer binding with an unknown name
leaves currentLayer, config, the emitted effects and the exit flag unchanged,
but on a press it still clears both momentary stacks before the failing name
search. -/
theorem c6_unknown_names (reload : Option Config) (ev : KeyboardEvent)
    (n : String) (s : InterpState)
    (hunknown : findLayer s.config n = none) :
    executeBinding reload ev (Binding.toggleLayer n) s = s
    ∧ ((executeBinding reload ev (Binding.layer n) s).currentLayer
          = s.currentLayer
        ∧ (executeBinding reload ev (Binding.layer n) s).config = s.config
        ∧ (executeBinding reload ev (Binding.layer n) s).emitted = s.emitted
        ∧ (executeBinding reload ev (Binding.layer n) s).exited = s.exited
        ∧ (ev.isPress = true → s.toggleLayerPrevious ≠ [] →
            (executeBinding reload ev (Binding.layer n) s).toggleLayerKeys = []
            ∧ (executeBinding reload ev (Binding.layer n) s).toggleLayerPrevious
                = []))
    ∧ (∀ x y : ℚ, executeBinding reload ev (Binding.move x y) s = s)
    ∧ (∀ x y : ℚ, executeBinding reload ev (Binding.scroll x y) s = s)
    ∧ (∀ v : ℚ, executeBinding reload ev (Binding.speed v) s = s)
    ∧ executeBindingOpt reload ev none s = s := by
  have hlayer : executeBinding reload ev (Binding.layer n) s =
      if ev.isPress = true then
        (if s.toggleLayerPrevious ≠ [] then
          { s with toggleLayerKeys := [], toggleLayerPrevious := [] }
        else s)
      else s := by
    by_cases hp : ev.isPress <;>
      by_cases hne : s.toggleLayerPrevious = [] <;>
        simp [executeBinding, hp, hne, hunknown]
  refine ⟨?_, ⟨?_, ?_, ?_, ?_, ?_⟩, ?_, ?_, ?_, ?_⟩
  · by_cases hp : ev.isPress <;> simp [executeBinding, hp, hunknown]
  · rw [hlayer]
    by_cases hp : ev.isPress <;> by_cases hne : s.toggleLayerPrevious = [] <;>
      simp [hp, hne]
  · rw [hlayer]
    by_cases hp : ev.isPress <;> by_cases hne : s.toggleLayerPrevious = [] <;>
      simp [hp, hne]
  · rw [hlayer]
    by_cases hp : ev.isPress <;> by_cases hne : s.toggleLayerPrevious = [] <;>
      simp [hp, hne]
  · rw [hlayer]
    by_cases hp : ev.isPress <;> by_cases hne : s.toggleLayerPrevious = [] <;>
      simp [hp, hne]
  · intro hp hne
    rw [hlayer]
    simp [hp, hne]
  · intro x y
    simp [executeBinding]
  · intro x y
    simp [executeBinding]
  · intro v
    simp [executeBinding]
  · simp [executeBindingOpt]

/-- Witness for the C6 theorem: an unknown ToggleLayer name at a concrete state. -/
theorem c6_unknown_names_witness :
    executeBinding none (pressEv 7) (Binding.toggleLayer "ghost") ghostState
      = ghostState :=
  (c6_unknown_names none (pressEv 7) "ghost" ghostState (by decide)).1

/-- Claim C7: executing a Layer binding on a press empties the momentary
stack (both toggleLayerKeys and toggleLayerPrevious become empty, whether or
not the name matches a layer), a ToggleLayer press executed on the resulting
state pushes onto the empty stack, and on a release event a Layer binding
changes nothing. -/
theorem c7_layer_press_clears_stack (reload reload2 : Option Config)
    (ev ev2 : KeyboardEvent) (n m : String) (s : InterpState)
    (hp : ev.isPress = true) (hp2 : ev2.isPress = true)
    (hlen : s.toggleLayerKeys = [] ↔ s.toggleLayerPrevious = []) :
    ((executeBinding reload ev (Binding.layer n) s).toggleLayerKeys = []
      ∧ (executeBinding reload ev (Binding.layer n) s).toggleLayerPrevious = [])
    ∧ (∀ l, findLayer s.config m = some l →
        (executeBinding reload2 ev2 (Binding.toggleLayer m)
            (executeBinding reload ev (Binding.layer n) s)).toggleLayerKeys
          = [ev2.code]
        ∧ (executeBinding reload2 ev2 (Binding.toggleLayer m)
            (executeBinding reload ev (Binding.layer n) s)).toggleLayerPrevious
          = [(executeBinding reload ev (Binding.layer n) s).currentLayer])
    ∧ (∀ ev3 : KeyboardEvent, ev3.isPress = false →
        executeBinding reload ev3 (Binding.layer n) s = s) := by
  have hempty :
      (executeBinding reload ev (Binding.layer n) s).toggleLayerKeys = []
      ∧ (executeBinding reload ev (Binding.layer n) s).toggleLayerPrevious = []
      ∧ (executeBinding reload ev (Binding.layer n) s).config = s.config := by
    by_cases hne : s.toggleLayerPrevious = [] <;>
      cases hfl : findLayer s.config n <;>
        simp_all [executeBinding, hp, hne, hfl, hlen.mpr]
  refine ⟨⟨hempty.1, hempty.2.1⟩, ?_, ?_⟩
  · intro l hl
    generalize hs1 : executeBinding reload ev (Binding.layer n) s = s1 at hempty ⊢
    have hcfg : findLayer s1.config m = some l := by rw [hempty.2.2]; exact hl
    simp [executeBinding, hp2, hcfg, hempty.1, hempty.2.1]
  · intro ev3 h3
    exact executeBinding_release reload ev3 _ s h3

/-- Witness for the C7 theorem at a concrete state with a nonempty stack. -/
theorem c7_layer_press_clears_stack_witness :
    ((executeBinding none (pressEv 7) (Binding.layer "L0")
        ghostState).toggleLayerKeys = []
      ∧ (executeBinding none (pressEv 7) (Binding.layer "L0")
        ghostState).toggleLayerPrevious = [])
    ∧ (executeBinding none (pressEv 9) (Binding.toggleLayer "L1")
        (executeBinding none (pressEv 7) (Binding.layer "L0")
          ghostState)).toggleLayerKeys = [9] := by
  have h := c7_layer_press_clears_stack none none (pressEv 7) (pressEv 9)
    "L0" "L1" ghostState rfl rfl (by decide)
  refine ⟨h.1, ?_⟩
  exact (h.2.1 demoL1 (by decide)).1

/-- Claim C4: for every release event whose code occurs in toggleLayerKeys,
with i the smallest such index, handleKey truncates both stacks to length i
and sets currentLayer to toggleLayerPrevious at i, popping every layer
toggled after that key. -/
theorem c4_toggle_release_cascade (reload : Option Config)
    (ev : KeyboardEvent) (s : InterpState) (i : Nat)
    (hrel : ev.isPress = false) (hex : s.exited = false)
    (hidx : s.toggleLayerKeys.findIdx? (fun k => k == ev.code) = some i)
    (hlen : s.toggleLayerPrevious.length = s.toggleLayerKeys.length) :
    (handleKey reload ev s).toggleLayerKeys = s.toggleLayerKeys.take i
    ∧ (handleKey reload ev s).toggleLayerPrevious
        = s.toggleLayerPrevious.take i
    ∧ s.toggleLayerPrevious[i]? = some ((handleKey reload ev s).currentLayer)
    := by
  have hi : i < s.toggleLayerKeys.length :=
    (List.findIdx?_eq_some_iff_findIdx_eq.1 hidx).1
  have hi2 : i < s.toggleLayerPrevious.length := by omega
  rw [handleKey]
  simp only [hex, Bool.false_eq_true, if_false, hrel, if_true, hidx]
  rw [executeBindingOpt_release _ _ _ _ hrel]
  dsimp only
  refine ⟨rfl, rfl, ?_⟩
  rw [List.getD_eq_getElem?_getD, List.getElem?_eq_getElem hi2]
  simp

/-- Witness for the C4 theorem on the spec scenario: press 58 (ToggleLayer
L1), press 59 (ToggleLayer L2), release 58 ends on the original layer with
both stacks empty. -/
theorem c4_toggle_release_cascade_witness :
    demoS2.toggleLayerKeys = [58, 59]
    ∧ (handleKey none (releaseEv 58) demoS2).toggleLayerKeys = []
    ∧ (handleKey none (releaseEv 58) demoS2).toggleLayerPrevious = []
    ∧ (handleKey none (releaseEv 58) demoS2).currentLayer = demoL0 := by
  have h := c4_toggle_release_cascade none (releaseEv 58) demoS2 0 rfl
    (by decide) (by decide) (by decide)
  refine ⟨by decide, by simpa using h.1, by simpa using h.2.1, ?_⟩
  have h3 := h.2.2
  have hp0 : demoS2.toggleLayerPrevious[0]? = some demoL0 := by decide
  rw [hp0] at h3
  exact (Option.some.inj h3).symm

/-- Counterexample to claim C1: pressing a ToggleLayer key, executing a
successful ReloadConfig press, then releasing the toggle key restores
currentLayer from toggleLayerPrevious, and the restored layer is not a member
of the (new) config.Layers although the process has not exited. -/
theorem c1_counterexample :
    rldS3.exited = false ∧ rldS3.currentLayer ∉ rldS3.config.layers := by
  decide

/-- Claim C1 (amended): the layer-membership invariant (currentLayer and
every layer on toggleLayerPrevious belong to config.Layers, vacuously once
exited) holds in the startup state produced by loadConfig and is preserved by
every handleKey step that does not successfully reload the configuration. -/
theorem c1_layer_membership (c : Config) (ev : KeyboardEvent)
    (s : InterpState) (h : Inv s) :
    Inv (initialState c) ∧ Inv (handleKey none ev s) := by
  constructor
  · unfold initialState loadConfig
    dsimp only
    cases hc : c.layers with
    | nil => exact Or.inl rfl
    | cons l0 rest =>
      right
      dsimp only
      rw [hc]
      exact ⟨List.mem_cons_self l0 rest, by intro l hl; simp at hl⟩
  · exact handleKey_inv ev s h

/-- Witness for the C1 theorem at a concrete configuration and state. -/
theorem c1_layer_membership_witness :
    Inv (initialState demoCfg) ∧ Inv (handleKey none (pressEv 58) demoS0) :=
  c1_layer_membership demoCfg (pressEv 58) demoS0 (by unfold Inv; decide)

/-- Counterexample to claim C3: on a non-initial layer carrying a wildcard
binding and no exact Escape binding, a press of Escape resolves to the
synthesized Layer binding for the initial layer, not to the wildcard. -/
theorem c3_counterexample :
    escState.currentLayer.wildcardBinding = some (Binding.key [30])
    ∧ escState.currentLayer.bindings.lookup KEY_ESC = none
    ∧ escState.currentLayer ≠ initialLayer escState.config
    ∧ resolveBinding escState (pressEv KEY_ESC)
        = some (Binding.layer "base")
    ∧ resolveBinding escState (pressEv KEY_ESC)
        ≠ escState.currentLayer.wildcardBinding := by
  decide

/-- Claim C3 (amended): binding resolution follows the precedence exact
binding, then the Escape bail-out, then wildcard, then pass-through
synthesis, then nil; the Layer(initial) binding is synthesized when the exact
lookup alone yields nil, the event is a press of Escape and currentLayer is
not the initial layer, so it wins over a wildcard binding. -/
theorem c3_resolution_order (s : InterpState) (ev : KeyboardEvent) :
    (∀ b, s.currentLayer.bindings.lookup ev.code = some b →
        resolveBinding s ev = some b)
    ∧ (s.currentLayer.bindings.lookup ev.code = none →
        ev.code = KEY_ESC → ev.isPress = true →
        s.currentLayer ≠ initialLayer s.config →
        resolveBinding s ev
          = some (Binding.layer (initialLayer s.config).name))
    ∧ (s.currentLayer.bindings.lookup ev.code = none →
        ¬(ev.code = KEY_ESC ∧ ev.isPress = true ∧
            s.currentLayer ≠ initialLayer s.config) →
        ∀ w, s.currentLayer.wildcardBinding = some w →
          resolveBinding s ev = some w)
    ∧ (s.currentLayer.bindings.lookup ev.code = none →
        ¬(ev.code = KEY_ESC ∧ ev.isPress = true ∧
            s.currentLayer ≠ initialLayer s.config) →
        s.currentLayer.wildcardBinding = none →
        s.currentLayer.passThrough = true →
        resolveBinding s ev = some (Binding.key [ev.code]))
    ∧ (s.currentLayer.bindings.lookup ev.code = none →
        ¬(ev.code = KEY_ESC ∧ ev.isPress = true ∧
            s.currentLayer ≠ initialLayer s.config) →
        s.currentLayer.wildcardBinding = none →
        s.currentLayer.passThrough = false →
        resolveBinding s ev = none) := by
  refine ⟨?_, ?_, ?_, ?_, ?_⟩
  · intro b hb
    simp [resolveBinding, hb]
  · intro hb hesc hpr hne
    simp only [resolveBinding, hb]
    simp [hesc, hpr, hne]
  · intro hb hnesc w hw
    simp only [resolveBinding, hb, hw]
    simp [hnesc]
  · intro hb hnesc hw hpt
    simp only [resolveBinding, hb, hw, hpt]
    simp [hnesc]
  · intro hb hnesc hw hpt
    simp only [resolveBinding, hb, hw, hpt]
    simp [hnesc]

/-- Witness for the C3 theorem: an exact binding wins at a concrete state. -/
theorem c3_resolution_order_witness :
    resolveBinding ghostState (pressEv 59)
      = some (Binding.toggleLayer "L2") :=
  (c3_resolution_order ghostState (pressEv 59)).1
    (Binding.toggleLayer "L2") (by decide)

/-- Helper for C9: with only motionless bindings held, the accumulation loop
keeps all four motion sums at zero (the speed factor may still change). -/
theorem accumulateContribs_no_motion (pressed : Nat → Bool)
    (l : List (Nat × Binding))
    (h : ∀ p ∈ l, pressed p.1 = true → noMotionContribution p.2) :
    ∀ sf : ℚ, ∃ sf2 : ℚ,
      accumulateContribs pressed l (0, 0, 0, 0, sf) = (0, 0, 0, 0, sf2) := by
  induction l with
  | nil => exact fun sf => ⟨sf, rfl⟩
  | cons p rest ih =>
    intro sf
    obtain ⟨code, b⟩ := p
    have hrest : ∀ p ∈ rest, pressed p.1 = true → noMotionContribution p.2 :=
      fun p hp => h p (List.mem_cons_of_mem _ hp)
    by_cases hpr : pressed code
    · have hb := h (code, b) (List.mem_cons_self _ _)
      cases b with
      | move x y =>
        obtain ⟨hx, hy⟩ := hb hpr
        simpa [accumulateContribs, hpr, hx, hy] using ih hrest sf
      | scroll x y =>
        obtain ⟨hx, hy⟩ := hb hpr
        simpa [accumulateContribs, hpr, hx, hy] using ih hrest sf
      | speed v => simpa [accumulateContribs, hpr] using ih hrest (sf * v)
      | key combo => simpa [accumulateContribs, hpr] using ih hrest sf
      | button btn => simpa [accumulateContribs, hpr] using ih hrest sf
      | layer n => simpa [accumulateContribs, hpr] using ih hrest sf
      | toggleLayer n => simpa [accumulateContribs, hpr] using ih hrest sf
      | tapHold t hh => simpa [accumulateContribs, hpr] using ih hrest sf
      | multi bs => simpa [accumulateContribs, hpr] using ih hrest sf
      | reloadConfig => simpa [accumulateContribs, hpr] using ih hrest sf
      | exec cmd => simpa [accumulateContribs, hpr] using ih hrest sf
    · simpa [accumulateContribs, hpr] using ih hrest sf

/-- Claim C9: on an iteration where no held Move or Scroll binding of the
current layer contributes nonzero motion (speed bindings never enter the
motion test) and the virtual mouse reports no residual motion, the loop calls
neither Move nor Scroll and arms the effectively-infinite timer. -/
theorem c9_tick_parks (pressed : Nat → Bool) (isMoving : Bool)
    (s : InterpState)
    (h : ∀ p ∈ s.currentLayer.bindings,
        pressed p.1 = true → noMotionContribution p.2)
    (hm : isMoving = false) :
    mouseTick pressed isMoving s = { actions := [], parked := true } := by
  obtain ⟨sf2, hacc⟩ :=
    accumulateContribs_no_motion pressed s.currentLayer.bindings h 1
  rw [mouseTick, hacc]
  simp [hm]

/-- Witness for the C9 theorem: a held Speed binding and an unheld Move
binding still park the loop. -/
theorem c9_tick_parks_witness :
    mouseTick (fun c => c == 10) false
      { config := cfgZero,
        currentLayer :=
          { name := "mov", bindings := [(10, .speed 2), (11, .move 3 4)],
            wildcardBinding := none, passThrough := false },
        toggleLayerKeys := [], toggleLayerPrevious := [], exited := false,
        emitted := [] } = { actions := [], parked := true } := by
  apply c9_tick_parks
  · intro p hp hpr
    fin_cases hp
    · exact trivial
    · simp at hpr
  · rfl

end Mouseless

namespace Mouseless.Keyboard

/-- Claim C5 (code bug evaluation): on the very first open failure of a
fresh device (state StateNotOpen), the failure is logged at debug level, not
warn, because openDevice sets the state to StateOpenFailed before ReadLoop
inspects it; the warn branch is unreachable. -/
theorem c5_first_failure_logs_debug :
    readLoopIter (OpenOutcome.openFails "no such device")
      { deviceName := "/dev/input/event0", state := .stateNotOpen,
        lastOpenError := "" } =
      ({ deviceName := "/dev/input/event0", state := .stateOpenFailed,
         lastOpenError := "no such device" }, some LogLevel.debug) := by
  rfl

/-- Claim C8: the reader forwards an Event exactly for the read events of
type EV_KEY with value 0 or 1, with the same code, IsPress true exactly when
the value is 1, and the reader timestamp at receipt; autorepeat events
(value 2) and non-key events are dropped (the count of forwarded events
equals the count of events passing the filter). -/
theorem c8_event_forwarding (now : Nat) (evs : List InputEvent) :
    (∀ e ∈ evs, e.eventType = EV_KEY → (e.value = 0 ∨ e.value = 1) →
        ({ code := e.code, isPress := e.value == 1, time := now } : Event)
          ∈ processEvents now evs)
    ∧ (∀ out ∈ processEvents now evs, out.time = now ∧
        ∃ e ∈ evs, e.eventType = EV_KEY ∧ (e.value = 0 ∨ e.value = 1) ∧
          out.code = e.code ∧ out.isPress = (e.value == 1))
    ∧ (processEvents now evs).length = evs.countP (fun e =>
        decide (e.eventType = EV_KEY) &&
          (decide (e.value = 0) || decide (e.value = 1))) := by
  induction evs with
  | nil => simp [processEvents]
  | cons e rest ih =>
    by_cases hc : e.eventType = EV_KEY ∧ (e.value = 0 ∨ e.value = 1)
    · refine ⟨?_, ?_, ?_⟩
      · intro e2 he2 ht hv
        rcases List.mem_cons.1 he2 with rfl | he2
        · simp [processEvents, hc]
        · simp only [processEvents, hc, if_true]
          exact List.mem_cons_of_mem _ (ih.1 e2 he2 ht hv)
      · intro out hout
        simp only [processEvents, hc, if_true] at hout
        rcases List.mem_cons.1 hout with rfl | hout
        · exact ⟨rfl, e, List.mem_cons_self _ _, hc.1, hc.2, rfl, rfl⟩
        · obtain ⟨ht, e2, he2, h1, h2, h3, h4⟩ := ih.2.1 out hout
          exact ⟨ht, e2, List.mem_cons_of_mem _ he2, h1, h2, h3, h4⟩
      · simp only [processEvents, if_pos hc, List.length_cons,
          List.countP_cons]
        rw [ih.2.2]
        have hp2 : (decide (e.eventType = EV_KEY) &&
            (decide (e.value = 0) || decide (e.value = 1))) = true := by
          rcases hc.2 with hv | hv <;> simp [hc.1, hv]
        rw [hp2]
        simp
    · refine ⟨?_, ?_, ?_⟩
      · intro e2 he2 ht hv
        rcases List.mem_cons.1 he2 with rfl | he2
        · exact absurd ⟨ht, hv⟩ hc
        · simp only [processEvents, hc, if_false]
          exact ih.1 e2 he2 ht hv
      · intro out hout
        simp only [processEvents, hc, if_false] at hout
        obtain ⟨ht, e2, he2, h1, h2, h3, h4⟩ := ih.2.1 out hout
        exact ⟨ht, e2, List.mem_cons_of_mem _ he2, h1, h2, h3, h4⟩
      · simp only [processEvents, hc, if_false, List.countP_cons]
        rw [ih.2.2]
        have : (decide (e.eventType = EV_KEY) &&
            (decide (e.value = 0) || decide (e.value = 1))) = false := by
          rcases not_and_or.1 hc with h1 | h1 <;> simp_all [not_or]
        simp [this]

/-- Witness for the C8 theorem: of a press, an autorepeat and a non-key
event, only the press is forwarded. -/
theorem c8_event_forwarding_witness :
    ({ code := 30, isPress := true, time := 7 } : Event)
      ∈ processEvents 7 [⟨1, 30, 1⟩, ⟨1, 31, 2⟩, ⟨2, 40, 1⟩]
    ∧ (processEvents 7 [⟨1, 30, 1⟩, ⟨1, 31, 2⟩, ⟨2, 40, 1⟩]).length = 1 := by
  have h := c8_event_forwarding 7 [⟨1, 30, 1⟩, ⟨1, 31, 2⟩, ⟨2, 40, 1⟩]
  refine ⟨?_, ?_⟩
  · have := h.1 ⟨1, 30, 1⟩ (by decide) rfl (Or.inr rfl)
    simpa using this
  · rw [h.2.2]
    decide

end Mouseless.Keyboard
